import Mathlib

/-!
Verification of the `create-mcp-server` scaffolding tool
(`bin/create-mcp-server.js`).

The development shallowly embeds the script's core logic:

* the fixed exclusion policy consulted by `copyFiles`;
* `copyFiles`, the recursive tree replicator, modelled on directory
  trees (`FsTree`) with byte contents as `List Nat`;
* `isDirectoryEmpty`, the destination-safety check, modelled on the
  list of entry names returned by `fs.readdirSync`;
* `detectPackageManager`, the package-tool fallback chain, with the
  `which <tool>` probe abstracted as a boolean-valued function;
* `installAndBuild`, with subprocess failures made explicit;
* `createProjectPackageJson`, the manifest generator;
* project-name resolution (`serverName.trim() || defaultName`) with
  JavaScript's `trim` whitespace set and Node's POSIX `basename`;
* `runMain`, the orchestration skeleton of `main`, with filesystem
  and subprocess outcomes as explicit parameters and `process.exit`
  codes, prompt activity and file writes made observable.
-/

/-- The fixed list of entry names skipped by `copyFiles`
(lines 190-200 of the script), in source order. -/
def excludedNames : List String :=
  [ "node_modules"
  , "package-lock.json"
  , "npm-debug.log"
  , "yarn.lock"
  , "pnpm-lock.yaml"
  , "bun.lock"
  , ".git"
  , "bin"
  , ".cursor"
  , "LICENSE"
  , "build" ]

/-- The exclusion predicate of `copyFiles`: the source tests the entry
name for exact equality (`===`) against each member of `excludedNames`. -/
def isExcluded (name : String) : Bool :=
  excludedNames.contains name

mutual
/-- A directory tree: a leaf file with byte contents, or a directory
with an ordered list of named entries. -/
inductive FsTree : Type where
  | file : List Nat → FsTree
  | dir : Entries → FsTree
  deriving DecidableEq

/-- The entry list of a directory: name/subtree pairs in the order
`fs.readdirSync` yields them. -/
inductive Entries : Type where
  | nil : Entries
  | cons : String → FsTree → Entries → Entries
  deriving DecidableEq
end

mutual
/-- Model of `copyFiles` (lines 175-213) run against a fresh (empty)
destination: the resulting destination tree. The destination directory
is created unconditionally (`mkdirSync` before the entry loop, so an
empty directory node is still produced); each entry is first tested
against the exclusion list and skipped entirely if it matches;
otherwise directories are recursed into and files are copied
byte-for-byte (`copyFileSync`). -/
def copyFiles : FsTree → FsTree
  | .file c => .file c
  | .dir es => .dir (copyEntries es)

/-- The entry loop of `copyFiles`. -/
def copyEntries : Entries → Entries
  | .nil => .nil
  | .cons name t rest =>
    if isExcluded name then copyEntries rest
    else .cons name (copyFiles t) (copyEntries rest)
end

mutual
/-- All files of a tree as (relative path, contents) pairs, in
traversal order. -/
def filesOf : FsTree → List (List String × List Nat)
  | .file c => [([], c)]
  | .dir es => filesOfEntries es

/-- Files reachable from an entry list. -/
def filesOfEntries : Entries → List (List String × List Nat)
  | .nil => []
  | .cons name t rest =>
    (filesOf t).map (fun pc => (name :: pc.1, pc.2)) ++ filesOfEntries rest
end

mutual
/-- All entry paths (files and directories alike) of a tree, relative
to its root. -/
def entryPaths : FsTree → List (List String)
  | .file _ => []
  | .dir es => entryPathsOf es

/-- Entry paths contributed by an entry list. -/
def entryPathsOf : Entries → List (List String)
  | .nil => []
  | .cons name t rest =>
    [name] :: (entryPaths t).map (fun p => name :: p) ++ entryPathsOf rest
end

/-- Model of `isDirectoryEmpty` (lines 31-34), on the list of names
returned by `fs.readdirSync(targetDir)`: true when there are no
entries, or exactly one entry whose name is `.git`. -/
def isDirectoryEmpty (files : List String) : Bool :=
  files.length == 0 || (files.length == 1 && files.getD 0 "" == ".git")

/-- Filtering a list of path/content pairs after prefixing every path
with `name`: nothing survives when `name` is excluded, and the filter
is otherwise unaffected by the prefix. -/
theorem filter_map_consName (name : String) (l : List (List String × List Nat)) :
    (l.map (fun pc => (name :: pc.1, pc.2))).filter (fun pc => !(pc.1.any isExcluded)) =
      if isExcluded name then []
      else (l.filter (fun pc => !(pc.1.any isExcluded))).map
        (fun pc => (name :: pc.1, pc.2)) := by
  induction l with
  | nil => simp
  | cons hd tl ih =>
    by_cases h : isExcluded name <;>
      by_cases h2 : hd.1.any isExcluded <;>
        simp [h, h2, ih, List.filter_cons, List.any_cons]

mutual
/-- The files of the replicated tree are exactly the source files whose
paths contain no excluded component, contents preserved. -/
theorem filesOf_copyFiles (t : FsTree) :
    filesOf (copyFiles t) =
      (filesOf t).filter (fun pc => !(pc.1.any isExcluded)) := by
  cases t with
  | file c => simp [copyFiles, filesOf]
  | dir es => simpa [copyFiles, filesOf] using filesOfEntries_copyEntries es

/-- Entry-list version of `filesOf_copyFiles`. -/
theorem filesOfEntries_copyEntries (es : Entries) :
    filesOfEntries (copyEntries es) =
      (filesOfEntries es).filter (fun pc => !(pc.1.any isExcluded)) := by
  cases es with
  | nil => rfl
  | cons name t rest =>
    by_cases h : isExcluded name
    · simp [copyEntries, h, filesOfEntries, List.filter_append,
        filter_map_consName, filesOfEntries_copyEntries rest]
    · simp [copyEntries, h, filesOfEntries, List.filter_append,
        filter_map_consName, filesOfEntries_copyEntries rest,
        filesOf_copyFiles t]
end

/-- Prefixing every path in a list with a non-excluded name does not
change whether all paths are free of excluded components. -/
theorem all_map_consName (name : String) (l : List (List String))
    (h : isExcluded name = false) :
    ((l.map (fun p => name :: p)).all (fun p => !(p.any isExcluded))) =
      l.all (fun p => !(p.any isExcluded)) := by
  induction l with
  | nil => rfl
  | cons hd tl ih => simp [h, ih, List.any_cons]

mutual
/-- No entry of the replicated tree has an excluded component anywhere
in its path: excluded entries and their descendants are absent. -/
theorem entryPaths_copyFiles (t : FsTree) :
    (entryPaths (copyFiles t)).all (fun p => !(p.any isExcluded)) = true := by
  cases t with
  | file c => rfl
  | dir es => simpa [copyFiles, entryPaths] using entryPathsOf_copyEntries es

/-- Entry-list version of `entryPaths_copyFiles`. -/
theorem entryPathsOf_copyEntries (es : Entries) :
    (entryPathsOf (copyEntries es)).all (fun p => !(p.any isExcluded)) = true := by
  cases es with
  | nil => rfl
  | cons name t rest =>
    by_cases h : isExcluded name
    · simpa [copyEntries, h] using entryPathsOf_copyEntries rest
    · simp [copyEntries, h, entryPathsOf, List.all_append, List.any_cons,
        all_map_consName name _ (by simpa using h),
        entryPaths_copyFiles t, entryPathsOf_copyEntries rest]
end

/-- C1: Replicating any source tree (into a fresh destination, as the
preflight-guarded orchestrator does) yields exactly the source files
whose relative paths contain no excluded component — i.e. the files of
the source minus every file that is, or has an ancestor entry that is,
in the exclusion set — with byte-identical contents, and no entry of
the destination (file or directory) is an excluded entry or a
descendant of one. -/
theorem copyFiles_replication_spec (t : FsTree) :
    filesOf (copyFiles t) =
      (filesOf t).filter (fun pc => !(pc.1.any isExcluded)) ∧
    (entryPaths (copyFiles t)).all (fun p => !(p.any isExcluded)) = true :=
  ⟨filesOf_copyFiles t, entryPaths_copyFiles t⟩

/-- C2: The exclusion policy is a stateless exact-name-equality
predicate over a fixed finite set containing the dependency cache
(`node_modules`), lock files of four package-management ecosystems
(npm, yarn, pnpm, bun), the version-control metadata directory
(`.git`), the pre-built output directory (`build`), the packaging-only
license file (`LICENSE`) and the executables directory (`bin`); it is
case-sensitive, does no prefix or wildcard matching, and `copyEntries`
applies it to the bare entry name identically at every depth. -/
theorem exclusion_policy_exact (name : String) (t : FsTree) (rest : Entries) :
    (isExcluded name = true ↔ name ∈ excludedNames) ∧
    isExcluded "node_modules" = true ∧
    isExcluded "package-lock.json" = true ∧
    isExcluded "yarn.lock" = true ∧
    isExcluded "pnpm-lock.yaml" = true ∧
    isExcluded "bun.lock" = true ∧
    isExcluded ".git" = true ∧
    isExcluded "build" = true ∧
    isExcluded "LICENSE" = true ∧
    isExcluded "bin" = true ∧
    isExcluded "license" = false ∧
    isExcluded ".GIT" = false ∧
    isExcluded "node_modules2" = false ∧
    isExcluded "yarn.lock.bak" = false ∧
    isExcluded "my-node_modules" = false ∧
    copyEntries (.cons name t rest) =
      (if isExcluded name then copyEntries rest
       else .cons name (copyFiles t) (copyEntries rest)) := by
  refine ⟨?_, by decide, by decide, by decide, by decide, by decide,
    by decide, by decide, by decide, by decide, by decide, by decide,
    by decide, by decide, by decide, by simp [copyEntries]⟩
  simp [isExcluded]

/-- C3: The destination-safety check accepts exactly the empty
directory and the directory whose sole entry is named `.git`; any
other entry list (including a single stray file) is rejected. -/
theorem isDirectoryEmpty_iff (files : List String) :
    isDirectoryEmpty files = true ↔ (files = [] ∨ files = [".git"]) := by
  match files with
  | [] => simp [isDirectoryEmpty]
  | [a] => simp [isDirectoryEmpty]
  | a :: b :: rest => simp [isDirectoryEmpty]

/-- The end-to-end template tree of the specification:
`{src/index.ts, node_modules/ignored.js, .git/HEAD, README.md}`,
with distinct placeholder byte contents. -/
def demoTemplate : FsTree :=
  .dir (.cons "src" (.dir (.cons "index.ts" (.file [1, 2, 3]) .nil))
    (.cons "node_modules" (.dir (.cons "ignored.js" (.file [4]) .nil))
    (.cons ".git" (.dir (.cons "HEAD" (.file [5]) .nil))
    (.cons "README.md" (.file [6, 7]) .nil))))

/-- C4 counterexample: replicating the demo template does NOT copy
exactly `{src/index.ts}` — the replicator's exclusion list does not
contain `README.md`, so `README.md` is also copied. -/
theorem copy_demo_counterexample :
    filesOf (copyFiles demoTemplate) ≠ [(["src", "index.ts"], [1, 2, 3])] ∧
    (["README.md"], ([6, 7] : List Nat)) ∈ filesOf (copyFiles demoTemplate) := by
  decide

/-- C4 (amended): replicating the demo template copies exactly
`{src/index.ts, README.md}` — `node_modules` and `.git` contribute
nothing, while `README.md` is copied by the replicator (it is later
overwritten by the documentation generator). -/
theorem copy_demo_amended :
    filesOf (copyFiles demoTemplate) =
      [(["src", "index.ts"], [1, 2, 3]), (["README.md"], [6, 7])] := by
  decide

/-- The whitespace characters recognized by JavaScript's
`String.prototype.trim` (ECMA-262 WhiteSpace and LineTerminator). -/
def jsWhitespaceChars : List Char :=
  [ '\t', '\n', '\x0B', '\x0C', '\r', ' ', ' ', ' '
  , ' ', ' ', ' ', ' ', ' ', ' ', ' '
  , ' ', ' ', ' ', ' ', ' ', ' ', ' '
  , ' ', '　', '﻿' ]

/-- Whether a character is JavaScript trim whitespace. -/
def isJsWhitespace (c : Char) : Bool :=
  jsWhitespaceChars.contains c

/-- JavaScript `trim` on a character list: drop leading and trailing
whitespace. -/
def jsTrimList (l : List Char) : List Char :=
  ((l.dropWhile isJsWhitespace).reverse.dropWhile isJsWhitespace).reverse

/-- JavaScript `String.prototype.trim`. -/
def jsTrim (s : String) : String :=
  ⟨jsTrimList s.data⟩

/-- Model of line 118: `serverName = serverName.trim() || defaultName`.
A trimmed-empty answer (the empty string is falsy) falls back to the
default name. -/
def resolveServerName (input defaultName : String) : String :=
  if jsTrim input = "" then defaultName else jsTrim input

/-- Model of Node's `path.basename` for POSIX paths (line 114 applies
it to the absolute working directory): drop trailing slashes, then
take the characters after the last remaining slash; the empty string
when no non-empty segment exists (e.g. for the filesystem root). -/
def posixBasename (p : String) : String :=
  ⟨((p.data.reverse.dropWhile (fun c => c = '/')).takeWhile
      (fun c => c != '/')).reverse⟩

/-- A trimmed character list is empty exactly when every character of
the original list is whitespace. -/
theorem jsTrimList_eq_nil_iff (l : List Char) :
    jsTrimList l = [] ↔ l.all isJsWhitespace = true := by
  unfold jsTrimList
  rw [List.reverse_eq_nil_iff, List.dropWhile_eq_nil_iff, List.all_eq_true]
  constructor
  · intro h x hx
    rcases List.mem_append.mp
        ((List.takeWhile_append_dropWhile (p := isJsWhitespace) (l := l)) ▸ hx) with
      h1 | h2
    · exact List.mem_takeWhile_imp h1
    · exact h x (List.mem_reverse.mpr h2)
  · intro h x hx
    have hx2 := List.mem_reverse.mp hx
    exact h x (List.dropWhile_subset _ hx2)

/-- A trimmed string is empty exactly when the input is all
whitespace. -/
theorem jsTrim_eq_empty_iff (s : String) :
    jsTrim s = "" ↔ s.data.all isJsWhitespace = true := by
  rw [← jsTrimList_eq_nil_iff]
  constructor
  · intro h
    simpa using congrArg String.data h
  · intro h
    simp [jsTrim, h]

/-- C5 counterexample: when the tool runs in the filesystem root, the
destination base name is empty, and a whitespace-only answer resolves
to the empty string — the resolved name CAN be empty. -/
theorem resolve_name_counterexample :
    posixBasename "/" = "" ∧
    resolveServerName "   " (posixBasename "/") = "" := by
  constructor <;> rfl

/-- C5 (amended): whitespace-only input resolves to the destination
base name, other input resolves to its trimmed form, and the resolved
name is non-empty provided the destination base name is non-empty. -/
theorem resolve_name_spec (input defaultName : String) :
    (input.data.all isJsWhitespace = true →
      resolveServerName input defaultName = defaultName) ∧
    (input.data.all isJsWhitespace = false →
      resolveServerName input defaultName = jsTrim input) ∧
    (defaultName ≠ "" → resolveServerName input defaultName ≠ "") := by
  refine ⟨?_, ?_, ?_⟩
  · intro h
    simp [resolveServerName, (jsTrim_eq_empty_iff input).mpr h]
  · intro h
    have h2 : ¬ jsTrim input = "" := by
      simp [jsTrim_eq_empty_iff, h]
    simp [resolveServerName, h2]
  · intro h
    by_cases h2 : jsTrim input = "" <;> simp [resolveServerName, h2, h]

/-- Witness for C5 (amended) at concrete inputs: surrounding
whitespace is stripped, whitespace-only input falls back to the
directory name, and with a non-empty directory name the result is
non-empty. -/
theorem resolve_name_spec_witness :
    (" my-server ".data.all isJsWhitespace = false ∧
      resolveServerName " my-server " "app" = "my-server") ∧
    ("  ".data.all isJsWhitespace = true ∧
      resolveServerName "  " "app" = "app") ∧
    ("app" ≠ "" ∧ resolveServerName "" "app" ≠ "") :=
  ⟨⟨by decide, by rw [(resolve_name_spec " my-server " "app").2.1 (by decide)]; rfl⟩,
   ⟨by decide, (resolve_name_spec "  " "app").1 (by decide)⟩,
   ⟨by decide, (resolve_name_spec "" "app").2.2 (by decide)⟩⟩

/-- Model of `detectPackageManager` (lines 52-66): probe for `bun`
(`which bun`); on success return "bun", otherwise probe for `npm` and
return "npm", and if that also fails still return "npm". The probe
abstracts `execSync` succeeding (true) or throwing (false). -/
def detectPackageManager (probe : String → Bool) : String :=
  if probe "bun" then "bun"
  else if probe "npm" then "npm"
  else "npm"

/-- The specification's priority-ordered fallback chain: first
candidate whose probe succeeds, or the fixed default. -/
def firstAvailable (probe : String → Bool) (defaultTool : String) :
    List String → String
  | [] => defaultTool
  | c :: rest => if probe c then c else firstAvailable probe defaultTool rest

/-- C9: package-tool resolution equals the priority-ordered fallback
chain over `[bun, npm]` with fixed default `npm`: the first candidate
whose probe succeeds is returned, and when every probe fails the
result is still `npm`; the resolver is a total function (it never
raises). -/
theorem detect_package_manager_chain (probe : String → Bool) :
    detectPackageManager probe = firstAvailable probe "npm" ["bun", "npm"] ∧
    (probe "bun" = true → detectPackageManager probe = "bun") ∧
    (probe "bun" = false → probe "npm" = true →
      detectPackageManager probe = "npm") ∧
    ((∀ tool, probe tool = false) → detectPackageManager probe = "npm") := by
  refine ⟨?_, ?_, ?_, ?_⟩
  · cases h1 : probe "bun" <;> cases h2 : probe "npm" <;>
      simp [detectPackageManager, firstAvailable, h1, h2]
  · intro h1
    simp [detectPackageManager, h1]
  · intro h1 h2
    simp [detectPackageManager, h1, h2]
  · intro hall
    simp [detectPackageManager, hall]

/-- Witness for C9 at concrete probes: with no tool present the
resolver still answers `npm`; with every tool present it answers
`bun`. -/
theorem detect_package_manager_chain_witness :
    detectPackageManager (fun _ => false) = "npm" ∧
    detectPackageManager (fun _ => true) = "bun" :=
  ⟨(detect_package_manager_chain (fun _ => false)).2.2.2 (fun _ => rfl),
   (detect_package_manager_chain (fun _ => true)).2.1 rfl⟩

/-- Outcome of `installAndBuild` (lines 69-87): whether the warning
path was taken, and whether an error escaped the function. -/
structure BuildOutcome where
  warned : Bool
  raised : Bool
  deriving DecidableEq

/-- Model of `installAndBuild`: the install and build subprocesses may
each fail (`execSync` throwing); both commands sit in one `try` block
whose `catch` prints a warning and returns normally, so a failure of
either yields a warning and nothing ever escapes. -/
def installAndBuild (installFails buildFails : Bool) : BuildOutcome :=
  if installFails then ⟨true, false⟩
  else if buildFails then ⟨true, false⟩
  else ⟨false, false⟩

/-- The environment and externally determined outcomes a run of `main`
depends on: the destination directory's entries, existence of the
bundled template source, the prompt answer, the destination's base
name, presence of the two auxiliary files, and the failure switches
for scaffolding steps and the two subprocesses. -/
structure MainConfig where
  destFiles : List String
  sourceExists : Bool
  userInput : String
  targetBase : String
  gitignoreExists : Bool
  tsconfigExists : Bool
  scaffoldFails : Bool
  installFails : Bool
  buildFails : Bool

/-- Observable outcome of a run of `main`: the process exit code, 0
when `main` returns normally; whether the name prompt was reached;
the destination entries written, in order; and whether the
install/build warning was printed. -/
structure MainResult where
  exitCode : Nat
  prompted : Bool
  writes : List String
  buildWarned : Bool
  deriving DecidableEq

/-- Model of `main` (lines 90-172). Checks run in source order: a
non-empty destination exits with code 1 before the prompt and before
any write; a missing template source likewise; otherwise the prompt
runs and the scaffolding steps execute inside a `try` block whose
`catch` exits with code 1 (writes performed before such a failure are
not tracked). On the success path the tree copy (`src`), the auxiliary
files that exist (`.gitignore`, `tsconfig.json`), `package.json` and
`README.md` are written in that order, then `installAndBuild` runs
with its internal error handling, and `main` returns normally (exit
code 0) whatever the subprocess outcomes were. -/
def runMain (cfg : MainConfig) : MainResult :=
  if !(isDirectoryEmpty cfg.destFiles) then ⟨1, false, [], false⟩
  else if !cfg.sourceExists then ⟨1, false, [], false⟩
  else if cfg.scaffoldFails then ⟨1, true, [], false⟩
  else
    ⟨0, true,
      "src" :: ((if cfg.gitignoreExists then [".gitignore"] else []) ++
        (if cfg.tsconfigExists then ["tsconfig.json"] else []) ++
        ["package.json", "README.md"]),
      (installAndBuild cfg.installFails cfg.buildFails).warned⟩

/-- C6: when the destination-safety check fails, `main` exits with
code 1, the name prompt is never reached, and nothing is written. -/
theorem unsafe_destination_aborts (cfg : MainConfig)
    (h : isDirectoryEmpty cfg.destFiles = false) :
    (runMain cfg).exitCode = 1 ∧ (runMain cfg).prompted = false ∧
      (runMain cfg).writes = [] := by
  simp [runMain, h]

/-- Witness for C6: a destination holding the single stray file
`notes.txt` is reported unsafe, the run exits with code 1 without
prompting, and no files are written. -/
theorem unsafe_destination_aborts_witness :
    isDirectoryEmpty ["notes.txt"] = false ∧
    ((runMain ⟨["notes.txt"], true, "my-server", "app", true, true,
        false, false, false⟩).exitCode = 1 ∧
      (runMain ⟨["notes.txt"], true, "my-server", "app", true, true,
        false, false, false⟩).prompted = false ∧
      (runMain ⟨["notes.txt"], true, "my-server", "app", true, true,
        false, false, false⟩).writes = []) :=
  ⟨by decide, unsafe_destination_aborts _ (by decide)⟩

/-- C7: subprocess failures in the install/build step never escape
`installAndBuild`; on a run where the destination is safe, the
template source exists and no scaffolding step fails, `main` exits
with code 0 regardless of install or build failure (degraded
success), warning exactly when one of them failed; and exit code 1
only arises from an unsafe destination, a missing template source or
a scaffolding failure. -/
theorem build_failure_degraded_success (cfg : MainConfig) :
    (installAndBuild cfg.installFails cfg.buildFails).raised = false ∧
    (isDirectoryEmpty cfg.destFiles = true → cfg.sourceExists = true →
      cfg.scaffoldFails = false →
      ((runMain cfg).exitCode = 0 ∧
        (runMain cfg).buildWarned = (cfg.installFails || cfg.buildFails))) ∧
    ((runMain cfg).exitCode = 1 →
      isDirectoryEmpty cfg.destFiles = false ∨ cfg.sourceExists = false ∨
        cfg.scaffoldFails = true) := by
  refine ⟨?_, ?_, ?_⟩
  · cases h1 : cfg.installFails <;> cases h2 : cfg.buildFails <;>
      simp [installAndBuild]
  · intro h1 h2 h3
    cases h4 : cfg.installFails <;> cases h5 : cfg.buildFails <;>
      simp [runMain, installAndBuild, h1, h2, h3, h4, h5]
  · intro h
    rcases cfg with ⟨d, s, u, tb, g, ts, sf, inf, bf⟩
    cases s <;> cases sf <;> by_cases hd : isDirectoryEmpty d <;>
      simp_all [runMain, installAndBuild]

/-- Witness for C7: with a safe destination and working scaffolding
but both subprocess steps failing, the run still exits with code 0
and the warning is recorded. -/
theorem build_failure_degraded_success_witness :
    (runMain ⟨[".git"], true, "my-server", "app", true, true,
        false, true, true⟩).exitCode = 0 ∧
    (runMain ⟨[".git"], true, "my-server", "app", true, true,
        false, true, true⟩).buildWarned = true :=
  (build_failure_degraded_success _).2.1 (by decide) rfl rfl

/-- The project descriptor written to `package.json` (lines 219-261),
fields in source order. The JSON object's `private` field is named
`privateFlag` here because `private` is a reserved word in Lean; the
`bin`, `scripts` and dependency objects are modelled as ordered
key/value lists. -/
structure PackageJson where
  name : String
  module : String
  type : String
  version : String
  description : String
  privateFlag : Bool
  bin : List (String × String)
  scripts : List (String × String)
  devDependencies : List (String × String)
  peerDependencies : List (String × String)
  dependencies : List (String × String)
  deriving DecidableEq

/-- Model of `createProjectPackageJson` (lines 216-268): the in-memory
descriptor it serializes, a function of the server name alone. -/
def createProjectPackageJson (serverName : String) : PackageJson where
  name := serverName
  module := "src/index.ts"
  type := "module"
  version := "1.0.0"
  description := "Model Context Protocol (MCP) Server - " ++ serverName
  privateFlag := true
  bin := [(serverName, "build/index.js")]
  scripts :=
    [ ("start", "node --loader ts-node/esm src/index.ts")
    , ("start:bun", "bun run src/index.ts")
    , ("build", "npm run build:bun || npm run build:tsc")
    , ("build:bun", "command -v bun >/dev/null && bun build src/index.ts --outdir build --target node || (echo \x27Bun not found, using tsc\x27 && npm run build:tsc)")
    , ("build:tsc", "tsc --project tsconfig.json && chmod +x build/index.js")
    , ("build:http", "npm run build:http:bun || npm run build:http:tsc")
    , ("build:http:bun", "command -v bun >/dev/null && bun build src/server/http-server.ts --outdir build --target node || (echo \x27Bun not found, using tsc\x27 && npm run build:http:tsc)")
    , ("build:http:tsc", "tsc --project tsconfig.json")
    , ("dev", "nodemon --exec ts-node --esm src/index.ts")
    , ("dev:bun", "bun --watch src/index.ts")
    , ("start:http", "node --loader ts-node/esm src/server/http-server.ts")
    , ("start:http:bun", "bun run src/server/http-server.ts")
    , ("dev:http", "nodemon --exec ts-node --esm src/server/http-server.ts")
    , ("dev:http:bun", "bun --watch src/server/http-server.ts")
    , ("prepare", "npm run build") ]
  devDependencies :=
    [ ("@types/bun", "latest")
    , ("@types/cors", "^2.8.17")
    , ("@types/node", "^20.11.0") ]
  peerDependencies :=
    [ ("typescript", "^5.8.2")
    , ("@valibot/to-json-schema", "^1.0.0")
    , ("effect", "^3.14.4") ]
  dependencies :=
    [ ("fastmcp", "^1.21.0")
    , ("cors", "^2.8.5")
    , ("zod", "^3.24.2") ]

/-- C8: manifest generation is a pure, deterministic function of the
project name alone — equal names give identical descriptors — with
package name equal to the project name, the declared module entry
point `src/index.ts`, the fixed script table (start and bun-runtime
start, the build fallback chain with bun and tsc paths, http and dev
variants, prepare), and the fixed dependency and dev-dependency lists
with fixed version ranges. -/
theorem manifest_pure_and_fixed (n m : String) :
    (n = m → createProjectPackageJson n = createProjectPackageJson m) ∧
    (createProjectPackageJson n).name = n ∧
    (createProjectPackageJson n).module = "src/index.ts" ∧
    (createProjectPackageJson n).bin = [(n, "build/index.js")] ∧
    (createProjectPackageJson n).scripts = (createProjectPackageJson m).scripts ∧
    (createProjectPackageJson n).scripts =
      [ ("start", "node --loader ts-node/esm src/index.ts")
      , ("start:bun", "bun run src/index.ts")
      , ("build", "npm run build:bun || npm run build:tsc")
      , ("build:bun", "command -v bun >/dev/null && bun build src/index.ts --outdir build --target node || (echo \x27Bun not found, using tsc\x27 && npm run build:tsc)")
      , ("build:tsc", "tsc --project tsconfig.json && chmod +x build/index.js")
      , ("build:http", "npm run build:http:bun || npm run build:http:tsc")
      , ("build:http:bun", "command -v bun >/dev/null && bun build src/server/http-server.ts --outdir build --target node || (echo \x27Bun not found, using tsc\x27 && npm run build:http:tsc)")
      , ("build:http:tsc", "tsc --project tsconfig.json")
      , ("dev", "nodemon --exec ts-node --esm src/index.ts")
      , ("dev:bun", "bun --watch src/index.ts")
      , ("start:http", "node --loader ts-node/esm src/server/http-server.ts")
      , ("start:http:bun", "bun run src/server/http-server.ts")
      , ("dev:http", "nodemon --exec ts-node --esm src/server/http-server.ts")
      , ("dev:http:bun", "bun --watch src/server/http-server.ts")
      , ("prepare", "npm run build") ] ∧
    (createProjectPackageJson n).dependencies =
      [("fastmcp", "^1.21.0"), ("cors", "^2.8.5"), ("zod", "^3.24.2")] ∧
    (createProjectPackageJson n).devDependencies =
      [("@types/bun", "latest"), ("@types/cors", "^2.8.17"),
        ("@types/node", "^20.11.0")] ∧
    (createProjectPackageJson n).peerDependencies =
      [("typescript", "^5.8.2"), ("@valibot/to-json-schema", "^1.0.0"),
        ("effect", "^3.14.4")] :=
  ⟨fun h => by rw [h], rfl, rfl, rfl, rfl, rfl, rfl, rfl, rfl⟩

/-- Witness for C8: two invocations with the name `my-server` agree. -/
theorem manifest_pure_and_fixed_witness :
    createProjectPackageJson "my-server" = createProjectPackageJson "my-server" :=
  (manifest_pure_and_fixed "my-server" "my-server").1 rfl

/-- The kind of a directory entry, as `withFileTypes` would report it.
`isDirectoryEmpty` never asks for it: `fs.readdirSync(targetDir)` is
called without `withFileTypes` and returns names only. -/
inductive EntryKind : Type where
  | file : EntryKind
  | directory : EntryKind
  deriving DecidableEq

/-- The destination-safety check as seen from a directory listing with
kinds: only the names are consulted. -/
def isDirectoryEmptyEntries (entries : List (String × EntryKind)) : Bool :=
  isDirectoryEmpty (entries.map Prod.fst)

/-- C10: the destination-safety check inspects only entry names, never
kinds — two listings with equal names are judged alike, a single
regular file named `.git` is judged safe, while a single entry named
`.GIT` (of either kind) or `.gitignore` is judged unsafe. -/
theorem safety_check_name_only :
    (∀ e1 e2 : List (String × EntryKind),
        e1.map Prod.fst = e2.map Prod.fst →
        isDirectoryEmptyEntries e1 = isDirectoryEmptyEntries e2) ∧
    isDirectoryEmptyEntries [(".git", EntryKind.file)] = true ∧
    isDirectoryEmptyEntries [(".GIT", EntryKind.file)] = false ∧
    isDirectoryEmptyEntries [(".GIT", EntryKind.directory)] = false ∧
    isDirectoryEmptyEntries [(".gitignore", EntryKind.file)] = false := by
  refine ⟨?_, by decide, by decide, by decide, by decide⟩
  intro e1 e2 h
  simp [isDirectoryEmptyEntries, h]

/-- Witness for C10: a lone regular file named `.git` and a lone
directory named `.git` are judged alike, and judged safe. -/
theorem safety_check_name_only_witness :
    isDirectoryEmptyEntries [(".git", EntryKind.file)] =
      isDirectoryEmptyEntries [(".git", EntryKind.directory)] ∧
    isDirectoryEmptyEntries [(".git", EntryKind.file)] = true :=
  ⟨safety_check_name_only.1 [(".git", EntryKind.file)]
      [(".git", EntryKind.directory)] rfl,
    safety_check_name_only.2.1⟩
